import Mathlib

/-!
# Verification of the churn-prediction dashboard pipeline

A shallow embedding of the session-state-driven prediction pipeline of
`app.py`: categorical encoding with manual fallback, feature-vector
assembly, output normalization, classification bands, revenue simulation,
cohort variance simulation, and the two export representations.

Real-valued quantities of the source are modelled as rationals (`ℚ`);
the opaque model artifacts (predictor, encoder, the seeded random stream)
are modelled as explicit function parameters, exactly as the source treats
them: externally produced values invoked at fixed call sites.
-/

namespace ChurnApp

/-- The enumerated set of the `Gender` selector (`app.py` line 761). -/
inductive Gender
  | Female
  | Male
  | Other
deriving DecidableEq, Repr

/-- The enumerated set of the `Subscription Type` selector (`app.py` line 763). -/
inductive SubscriptionType
  | Basic
  | Standard
  | Premium
deriving DecidableEq, Repr

/-- The fallback manual mapping `manual_gender = {"Female": 0, "Male": 1, "Other": 2}`
(`app.py` line 807). -/
def manual_gender : Gender → ℤ
  | Gender.Female => 0
  | Gender.Male => 1
  | Gender.Other => 2

/-- The fallback manual mapping `manual_sub = {"Basic": 0, "Premium": 1, "Standard": 2}`
(`app.py` line 808). -/
def manual_sub : SubscriptionType → ℤ
  | SubscriptionType.Basic => 0
  | SubscriptionType.Premium => 1
  | SubscriptionType.Standard => 2

/-- The loaded encoder artifact, treated as a dict of per-column label encoders
(`encoder['Gender'].transform`, `encoder['Subscription Type'].transform`,
`app.py` lines 814-815). A lookup that would raise any exception in the source
is modelled as returning `none`. -/
structure EncoderMap where
  genderCode : Gender → Option ℤ
  subCode : SubscriptionType → Option ℤ

/-- The label-encoding logic of `app.py` lines 810-821: try the loaded encoder
first (gender lookup, then subscription lookup); if the encoder is absent or
either lookup raises, the `except` clause assigns BOTH codes from the manual
fallback tables. The function is total: it always returns a pair of integer
codes, which embeds the source's guarantee that encoding never raises. -/
def encodeCategoricals (encoder : Option EncoderMap) (g : Gender)
    (s : SubscriptionType) : ℤ × ℤ :=
  match encoder with
  | none => (manual_gender g, manual_sub s)
  | some e =>
    match e.genderCode g with
    | none => (manual_gender g, manual_sub s)
    | some gv =>
      match e.subCode s with
      | none => (manual_gender g, manual_sub s)
      | some sv => (gv, sv)

/-- The Customer Feature Record: the eight typed input fields held in the
session state (`input_Age`, `input_Gender`, ..., `app.py` lines 585-594). -/
structure FeatureRecord where
  age : ℚ
  gender : Gender
  supportCalls : ℚ
  paymentDelay : ℚ
  subscription : SubscriptionType
  contractLength : ℚ
  totalSpend : ℚ
  lastInteraction : ℚ
deriving DecidableEq, Repr

/-- The assembled feature vector `payload` (`app.py` lines 824-833): the fixed
canonical order age, gender-code, support-calls, payment-delay,
subscription-code, contract-length, total-spend, last-interaction. -/
def payload (encoder : Option EncoderMap) (r : FeatureRecord) : List ℚ :=
  let codes := encodeCategoricals encoder r.gender r.subscription
  [r.age, (codes.1 : ℚ), r.supportCalls, r.paymentDelay, (codes.2 : ℚ),
   r.contractLength, r.totalSpend, r.lastInteraction]

/-- The normalization of the raw regressor output (`app.py` lines 840-844):
first `normalized_risk = min(max(raw, 0.0), 1.0) * 100.0`, then the value is
overwritten with `min(raw, 100.0)` whenever `raw > 2.0`. -/
def normalized_risk (raw_pred : ℚ) : ℚ :=
  if raw_pred > 2 then min raw_pred 100
  else min (max raw_pred 0) 1 * 100

/-- The classification banner consumed by the result view
(`app.py` lines 857-871): `risk > 60`, `risk > 30`, else secure. -/
def title_text (risk : ℚ) : String :=
  if risk > 60 then "HIGH CHURN PROBABILITY DETECTED"
  else if risk > 30 then "MODERATE ATTRITION RISK"
  else "CUSTOMER RETENTION SECURE"

/-- The Session State Store fields relevant to a prediction run: the current
input record plus the last risk score, its timestamp, and the compute latency
(`app.py` lines 585-602, 849-851). Before the first run the score and
timestamp are `None` and the latency is `0.0`. -/
structure SessionState where
  record : FeatureRecord
  churn_risk_score : Option ℚ
  timestamp : Option String
  compute_latency : ℚ

/-- The prediction-run handler (`app.py` lines 789-851): when the model
artifact is absent, `st.error` is shown (modelled as the `true` error flag)
and no session-state key is written; otherwise the predictor is invoked once
on the assembled payload, its output is normalized, and the score, current
timestamp and measured latency overwrite the stored Prediction Result. -/
def evaluate_clicked (model : Option (List ℚ → ℚ)) (encoder : Option EncoderMap)
    (now : String) (latency : ℚ) (s : SessionState) : SessionState × Bool :=
  match model with
  | none => (s, true)
  | some predict =>
    let raw := predict (payload encoder s.record)
    ({ s with churn_risk_score := some (normalized_risk raw),
              timestamp := some now,
              compute_latency := latency }, false)

/-- The monthly-recurring-revenue estimate `mrr = ltv / (contract_length + 1)`
(`app.py` line 1042). -/
def mrr (total_spend contract_length : ℚ) : ℚ :=
  total_spend / (contract_length + 1)

/-- The annualized revenue `annual_revenue = mrr * 12` (`app.py` line 1043). -/
def annual_revenue (total_spend contract_length : ℚ) : ℚ :=
  mrr total_spend contract_length * 12

/-- The at-risk revenue share `revenue_at_risk = annual_revenue * risk`
(`app.py` line 1045), where `risk` is the risk fraction (score / 100). -/
def revenue_at_risk (total_spend contract_length risk : ℚ) : ℚ :=
  annual_revenue total_spend contract_length * risk

/-- The secured revenue share `revenue_secured = annual_revenue * (1.0 - risk)`
(`app.py` line 1046). -/
def revenue_secured (total_spend contract_length risk : ℚ) : ℚ :=
  annual_revenue total_spend contract_length * (1 - risk)

/-- The fixed standard deviation of the cohort simulation,
`error_variance = 7.0`, the complement of the stated 93% accuracy
(`app.py` line 1096). -/
def error_variance : ℚ := 7

/-- The cohort variance simulation (`app.py` lines 1092-1099): the stream is
seeded with the fixed constant 42, then 100 samples are drawn from a normal
distribution centered at the base risk with standard deviation
`error_variance`, and clipped to `[0, 100]`. The numpy generator is an
external artifact; it is abstracted as a function `gen seed mean std i`
giving the i-th draw of the seeded stream, and the source always calls it
with seed 42, the base risk as mean, and the fixed standard deviation. -/
def simulated_cohort (gen : ℕ → ℚ → ℚ → ℕ → ℚ) (base_risk : ℚ) : List ℚ :=
  (List.range 100).map fun i =>
    min (max (gen 42 base_risk error_variance i) 0) 100

/-- The status field of the exported JSON dossier:
`"High Risk" if risk >= 50 else "Secure"` (`app.py` line 1172). -/
def export_status (risk : ℚ) : String :=
  if risk ≥ 50 then "High Risk" else "Secure"

/-- A leaf value of an export: either a categorical label or a number. -/
inductive ExportValue
  | str (s : String)
  | num (q : ℚ)
deriving DecidableEq, Repr

/-- The label shown and exported for a gender value. -/
def genderLabel : Gender → String
  | Gender.Female => "Female"
  | Gender.Male => "Male"
  | Gender.Other => "Other"

/-- The label shown and exported for a subscription tier. -/
def subLabel : SubscriptionType → String
  | SubscriptionType.Basic => "Basic"
  | SubscriptionType.Standard => "Standard"
  | SubscriptionType.Premium => "Premium"

/-- The telemetry block
`{t: st.session_state[f"input_{t}"] for t in FEATURE_VECTORS}`
(`app.py` line 1174): the eight feature name/value pairs. -/
def customer_telemetry (r : FeatureRecord) : List (String × ExportValue) :=
  [("Age", ExportValue.num r.age),
   ("Gender", ExportValue.str (genderLabel r.gender)),
   ("Support Calls", ExportValue.num r.supportCalls),
   ("Payment Delay", ExportValue.num r.paymentDelay),
   ("Subscription Type", ExportValue.str (subLabel r.subscription)),
   ("Contract Length", ExportValue.num r.contractLength),
   ("Total Spend", ExportValue.num r.totalSpend),
   ("Last Interaction", ExportValue.num r.lastInteraction)]

/-- The structured JSON export (`json_payload`, `app.py` lines 1163-1175),
flattened to its leaf field/value pairs: the metadata block (transaction id,
timestamp, model architecture, validation accuracy 0.930), the prediction
block (risk score percentage, status), and the telemetry block. -/
def json_payload (sess_id ts : String) (risk : ℚ) (r : FeatureRecord) :
    List (String × ExportValue) :=
  [("transaction_id", ExportValue.str sess_id),
   ("timestamp", ExportValue.str ts),
   ("model_architecture", ExportValue.str "DecisionTreeRegressor"),
   ("validation_accuracy", ExportValue.num 0.930),
   ("risk_score_percentage", ExportValue.num risk),
   ("status", ExportValue.str (export_status risk))] ++ customer_telemetry r

/-- The flat CSV export (`csv_data`, `app.py` line 1180): one row holding the
eight telemetry columns plus the `Churn_Risk_Pct` and `Timestamp` columns. -/
def csv_data (ts : String) (risk : ℚ) (r : FeatureRecord) :
    List (String × ExportValue) :=
  customer_telemetry r ++
    [("Churn_Risk_Pct", ExportValue.num risk),
     ("Timestamp", ExportValue.str ts)]

/-- The column names of an export. -/
def exportKeys (l : List (String × ExportValue)) : List String :=
  l.map Prod.fst

/-- Stated from the spec words, for comparison with the source exports: the
two on-demand exports are byte-identical in content and differ only in
layout, i.e. they carry exactly the same field/value pairs up to
arrangement. -/
def exports_same_content (sess_id ts : String) (risk : ℚ)
    (r : FeatureRecord) : Prop :=
  List.Perm (json_payload sess_id ts risk r) (csv_data ts risk r)

/-- The Customer Feature Record at session start: the categorical defaults
Female and Standard and the `GLOBAL_BASELINES` numeric defaults
(`app.py` lines 72-79, 585-594). -/
def default_record : FeatureRecord :=
  { age := 35, gender := Gender.Female, supportCalls := 2, paymentDelay := 5,
    subscription := SubscriptionType.Standard, contractLength := 12,
    totalSpend := 1500, lastInteraction := 14 }

end ChurnApp

namespace ChurnApp

/-- C1: the normalization step computes `clamp(r, 0, 1) * 100` when `r ≤ 2`,
and `min(r, 100)` when `r > 2`; its output always lies in `[0, 100]`; and
`0.42 ↦ 42`, `75 ↦ 75`, `1.5 ↦ 100`. -/
theorem normalized_risk_spec :
    (∀ r : ℚ, r ≤ 2 → normalized_risk r = min (max r 0) 1 * 100) ∧
    (∀ r : ℚ, 2 < r → normalized_risk r = min r 100) ∧
    (∀ r : ℚ, 0 ≤ normalized_risk r ∧ normalized_risk r ≤ 100) ∧
    normalized_risk 0.42 = 42 ∧
    normalized_risk 75 = 75 ∧
    normalized_risk 1.5 = 100 := by
  refine ⟨?_, ?_, ?_, by norm_num [normalized_risk], by norm_num [normalized_risk],
    by norm_num [normalized_risk]⟩
  · intro r hr
    simp only [normalized_risk, if_neg (not_lt.mpr hr)]
  · intro r hr
    simp only [normalized_risk, if_pos hr]
  · intro r
    unfold normalized_risk
    split
    · constructor
      · exact le_min (by linarith) (by norm_num)
      · exact min_le_right _ _
    · constructor
      · have h0 : (0 : ℚ) ≤ min (max r 0) 1 := le_min (le_max_right r 0) one_pos.le
        nlinarith
      · have h1 : min (max r 0) 1 ≤ 1 := min_le_right _ _
        nlinarith

/-- C1 witness: the two conditional branches evaluated at concrete raw outputs. -/
theorem normalized_risk_spec_witness :
    normalized_risk 1 = min (max 1 0) 1 * 100 ∧ normalized_risk 3 = min 3 100 :=
  ⟨normalized_risk_spec.1 1 (by norm_num), normalized_risk_spec.2.1 3 (by norm_num)⟩

/-- C10: the normalization is not monotone: every raw value in `(1, 2]` maps
to `100`, every raw value in `(2, 100]` maps to itself (`1.5 ↦ 100` but
`2.5 ↦ 2.5`), so there are `a < b` with `normalized_risk a > normalized_risk b`. -/
theorem normalized_risk_not_monotone :
    (∀ r : ℚ, 1 < r → r ≤ 2 → normalized_risk r = 100) ∧
    (∀ r : ℚ, 2 < r → r ≤ 100 → normalized_risk r = r) ∧
    normalized_risk 1.5 = 100 ∧
    normalized_risk 2.5 = 2.5 ∧
    ∃ a b : ℚ, a < b ∧ normalized_risk b < normalized_risk a := by
  refine ⟨?_, ?_, by norm_num [normalized_risk], by norm_num [normalized_risk],
    ⟨1.5, 2.5, by norm_num, by norm_num [normalized_risk]⟩⟩
  · intro r h1 h2
    have hmax : max r 0 = r := max_eq_left (by linarith)
    have hmin : min r 1 = 1 := min_eq_right (by linarith)
    simp [normalized_risk, if_neg (not_lt.mpr h2), hmax, hmin]
  · intro r h2 h100
    simp [normalized_risk, if_pos h2, min_eq_left h100]

/-- C10 witness: the two interval characterizations at concrete raw outputs. -/
theorem normalized_risk_not_monotone_witness :
    normalized_risk 1.2 = 100 ∧ normalized_risk 40 = 40 :=
  ⟨normalized_risk_not_monotone.1 1.2 (by norm_num) (by norm_num),
   normalized_risk_not_monotone.2.1 40 (by norm_num) (by norm_num)⟩

/-- C3: the result view classifies as high exactly when `risk > 60`, moderate
exactly when `30 < risk ≤ 60`, secure exactly when `risk ≤ 30`; in particular
`60 ↦ moderate`, `60.1 ↦ high`, `30 ↦ secure`. -/
theorem title_text_spec :
    (∀ r : ℚ, title_text r = "HIGH CHURN PROBABILITY DETECTED" ↔ 60 < r) ∧
    (∀ r : ℚ, title_text r = "MODERATE ATTRITION RISK" ↔ 30 < r ∧ r ≤ 60) ∧
    (∀ r : ℚ, title_text r = "CUSTOMER RETENTION SECURE" ↔ r ≤ 30) ∧
    title_text 60 = "MODERATE ATTRITION RISK" ∧
    title_text 60.1 = "HIGH CHURN PROBABILITY DETECTED" ∧
    title_text 30 = "CUSTOMER RETENTION SECURE" := by
  refine ⟨?_, ?_, ?_, by norm_num [title_text], by norm_num [title_text],
    by norm_num [title_text]⟩
  · intro r
    unfold title_text
    rcases lt_trichotomy 60 r with h | h | h
    · simp [if_pos h, h]
    · subst h
      norm_num
      decide
    · rw [if_neg (by linarith)]
      constructor
      · intro hs
        exfalso
        split at hs <;> simp_all
      · intro hr
        linarith
  · intro r
    unfold title_text
    by_cases h60 : 60 < r
    · simp only [if_pos h60]
      constructor
      · intro hs
        simp_all
      · intro ⟨_, h⟩
        linarith
    · simp only [if_neg h60]
      by_cases h30 : 30 < r
      · simp [if_pos h30, h30, not_lt.mp h60]
      · simp only [if_neg h30]
        constructor
        · intro hs
          simp_all
        · intro ⟨h, _⟩
          exact absurd h h30
  · intro r
    unfold title_text
    by_cases h60 : 60 < r
    · simp only [if_pos h60]
      constructor
      · intro hs
        simp_all
      · intro h
        linarith
    · simp only [if_neg h60]
      by_cases h30 : 30 < r
      · simp only [if_pos h30]
        constructor
        · intro hs
          simp_all
        · intro h
          linarith
      · simp [if_neg h30, not_lt.mp h30]

/-- C4: when the predictor artifact is absent, the prediction run is refused
with a user-visible error (the `true` flag) and the Session State Store is
returned entirely unchanged: no risk score, timestamp, or latency is written
and no prediction attempt is recorded. -/
theorem evaluate_clicked_no_model (encoder : Option EncoderMap) (now : String)
    (latency : ℚ) (s : SessionState) :
    evaluate_clicked none encoder now latency s = (s, true) ∧
    (evaluate_clicked none encoder now latency s).1.churn_risk_score =
      s.churn_risk_score ∧
    (evaluate_clicked none encoder now latency s).1.timestamp = s.timestamp ∧
    (evaluate_clicked none encoder now latency s).1.compute_latency =
      s.compute_latency :=
  ⟨rfl, rfl, rfl, rfl⟩

/-- C5: the categorical-encoding step is a total function into integer codes
(it never raises): it returns the loaded encoder codes when both lookups
succeed, and the fixed fallback codes when the encoder is absent or either
lookup fails; the fallback tables are Female 0, Male 1, Other 2 and
Basic 0, Premium 1, Standard 2. -/
theorem encodeCategoricals_spec :
    (∀ (e : EncoderMap) (g : Gender) (s : SubscriptionType) (gv sv : ℤ),
        e.genderCode g = some gv → e.subCode s = some sv →
        encodeCategoricals (some e) g s = (gv, sv)) ∧
    (∀ (g : Gender) (s : SubscriptionType),
        encodeCategoricals none g s = (manual_gender g, manual_sub s)) ∧
    (∀ (e : EncoderMap) (g : Gender) (s : SubscriptionType),
        e.genderCode g = none ∨ e.subCode s = none →
        encodeCategoricals (some e) g s = (manual_gender g, manual_sub s)) ∧
    manual_gender Gender.Female = 0 ∧ manual_gender Gender.Male = 1 ∧
    manual_gender Gender.Other = 2 ∧ manual_sub SubscriptionType.Basic = 0 ∧
    manual_sub SubscriptionType.Premium = 1 ∧
    manual_sub SubscriptionType.Standard = 2 := by
  refine ⟨?_, fun g s => rfl, ?_, rfl, rfl, rfl, rfl, rfl, rfl⟩
  · intro e g s gv sv hg hs
    simp [encodeCategoricals, hg, hs]
  · intro e g s h
    rcases h with h | h
    · simp [encodeCategoricals, h]
    · cases hg : e.genderCode g <;> simp [encodeCategoricals, hg, h]

/-- C5 witness: a concrete always-succeeding encoder and a concrete encoder
whose gender lookup fails, evaluated on one record. -/
theorem encodeCategoricals_spec_witness :
    encodeCategoricals (some ⟨fun _ => some 5, fun _ => some 7⟩)
      Gender.Male SubscriptionType.Premium = (5, 7) ∧
    encodeCategoricals (some ⟨fun _ => none, fun _ => some 7⟩)
      Gender.Male SubscriptionType.Premium =
      (manual_gender Gender.Male, manual_sub SubscriptionType.Premium) :=
  ⟨encodeCategoricals_spec.1 _ Gender.Male SubscriptionType.Premium 5 7 rfl rfl,
   encodeCategoricals_spec.2.2.1 _ Gender.Male SubscriptionType.Premium
     (Or.inl rfl)⟩

/-- C6: for every record and every encoding path, the assembled feature vector
has exactly 8 elements, in the fixed canonical order age, gender-code,
support-calls, payment-delay, subscription-code, contract-length, total-spend,
last-interaction. -/
theorem payload_spec (encoder : Option EncoderMap) (r : FeatureRecord) :
    (payload encoder r).length = 8 ∧
    payload encoder r =
      [r.age, ((encodeCategoricals encoder r.gender r.subscription).1 : ℚ),
       r.supportCalls, r.paymentDelay,
       ((encodeCategoricals encoder r.gender r.subscription).2 : ℚ),
       r.contractLength, r.totalSpend, r.lastInteraction] :=
  ⟨rfl, rfl⟩

/-- C7: the revenue simulation computes monthly revenue `s / (c + 1)`, annual
revenue `12 * monthly`, at-risk share `annual * p`, secured share
`annual * (1 - p)`; and spend 1200, contract length 11, risk 0.25 yield
monthly 100, annual 1200, secured 900, at-risk 300. -/
theorem revenue_spec :
    (∀ s c : ℚ, mrr s c = s / (c + 1)) ∧
    (∀ s c : ℚ, annual_revenue s c = 12 * mrr s c) ∧
    (∀ s c p : ℚ, revenue_at_risk s c p = annual_revenue s c * p) ∧
    (∀ s c p : ℚ, revenue_secured s c p = annual_revenue s c * (1 - p)) ∧
    mrr 1200 11 = 100 ∧ annual_revenue 1200 11 = 1200 ∧
    revenue_secured 1200 11 0.25 = 900 ∧
    revenue_at_risk 1200 11 0.25 = 300 := by
  refine ⟨fun s c => rfl, fun s c => by unfold annual_revenue; ring,
    fun s c p => rfl, fun s c p => rfl, ?_, ?_, ?_, ?_⟩ <;>
    norm_num [mrr, annual_revenue, revenue_at_risk, revenue_secured]

/-- C8: the cohort variance simulation is deterministic — with the seeded
stream fixed, two runs on equal base risks yield element-for-element equal
cohorts — and every cohort holds exactly 100 samples, each clamped to
`[0, 100]`. -/
theorem simulated_cohort_deterministic :
    (∀ (gen : ℕ → ℚ → ℚ → ℕ → ℚ) (b1 b2 : ℚ), b1 = b2 →
        simulated_cohort gen b1 = simulated_cohort gen b2) ∧
    (∀ (gen : ℕ → ℚ → ℚ → ℕ → ℚ) (b : ℚ),
        (simulated_cohort gen b).length = 100) ∧
    (∀ (gen : ℕ → ℚ → ℚ → ℕ → ℚ) (b x : ℚ), x ∈ simulated_cohort gen b →
        0 ≤ x ∧ x ≤ 100) := by
  refine ⟨fun gen b1 b2 h => by rw [h],
    fun gen b => by simp [simulated_cohort], ?_⟩
  intro gen b x hx
  simp only [simulated_cohort, List.mem_map] at hx
  obtain ⟨i, -, rfl⟩ := hx
  exact ⟨le_min (le_max_right _ _) (by norm_num), min_le_right _ _⟩

/-- C8 witness: determinism and clamping evaluated on a concrete stream whose
every draw returns the mean. -/
theorem simulated_cohort_deterministic_witness :
    simulated_cohort (fun _ m _ _ => m) 42 =
      simulated_cohort (fun _ m _ _ => m) 42 ∧
    (0 ≤ (42 : ℚ) ∧ (42 : ℚ) ≤ 100) :=
  ⟨simulated_cohort_deterministic.1 (fun _ m _ _ => m) 42 42 rfl,
   simulated_cohort_deterministic.2.2 (fun _ m _ _ => m) 42 42
     (List.mem_map.mpr ⟨0, List.mem_range.mpr (by norm_num), by norm_num⟩)⟩

/-- C9: the exported JSON status is "High Risk" exactly when the risk score
is at least 50 and "Secure" otherwise — a threshold distinct from the 30/60
classification bands, so risk 55 is moderate in the result view but High
Risk in the export. -/
theorem export_status_spec :
    (∀ r : ℚ, export_status r = "High Risk" ↔ 50 ≤ r) ∧
    (∀ r : ℚ, export_status r = "Secure" ↔ r < 50) ∧
    export_status 55 = "High Risk" ∧
    title_text 55 = "MODERATE ATTRITION RISK" := by
  refine ⟨?_, ?_, by norm_num [export_status], by norm_num [title_text]⟩
  · intro r
    unfold export_status
    by_cases h : 50 ≤ r
    · simp [if_pos h, h]
    · rw [if_neg h]
      constructor
      · intro hs
        exact absurd hs (by decide)
      · intro hr
        exact absurd hr h
  · intro r
    unfold export_status
    by_cases h : 50 ≤ r
    · rw [if_pos h]
      constructor
      · intro hs
        exact absurd hs (by decide)
      · intro hr
        exact absurd h (not_le.mpr hr)
    · simp [if_neg h, not_le.mp h]

/-- C2 counterexample: at the session-start record with risk 42, the JSON
export and the CSV export are not the same data in different layouts — the
JSON carries field/value pairs the CSV lacks. -/
theorem exports_content_differs :
    ¬ exports_same_content "CRM-IDX-0A1B2C3D" "2026-10-12 00:00:00 UTC" 42
        default_record := by
  intro h
  have hlen := h.length_eq
  simp [json_payload, csv_data, customer_telemetry] at hlen

/-- C2 amended: the two exports agree on their shared content — every
telemetry field/value pair appears in both, the risk value appears as
`risk_score_percentage` in the JSON and `Churn_Risk_Pct` in the CSV, the
timestamp as `timestamp` and `Timestamp` — but the JSON additionally carries
transaction id, model architecture, validation accuracy and status fields
that appear under no CSV column. -/
theorem exports_shared_content (sess_id ts : String) (risk : ℚ)
    (r : FeatureRecord) :
    (∀ kv, kv ∈ customer_telemetry r →
        kv ∈ json_payload sess_id ts risk r ∧ kv ∈ csv_data ts risk r) ∧
    ("risk_score_percentage", ExportValue.num risk) ∈
      json_payload sess_id ts risk r ∧
    ("Churn_Risk_Pct", ExportValue.num risk) ∈ csv_data ts risk r ∧
    ("timestamp", ExportValue.str ts) ∈ json_payload sess_id ts risk r ∧
    ("Timestamp", ExportValue.str ts) ∈ csv_data ts risk r ∧
    "model_architecture" ∈ exportKeys (json_payload sess_id ts risk r) ∧
    "model_architecture" ∉ exportKeys (csv_data ts risk r) ∧
    "validation_accuracy" ∉ exportKeys (csv_data ts risk r) ∧
    "transaction_id" ∉ exportKeys (csv_data ts risk r) ∧
    "status" ∉ exportKeys (csv_data ts risk r) := by
  have hjson : exportKeys (json_payload sess_id ts risk r) =
      ["transaction_id", "timestamp", "model_architecture",
       "validation_accuracy", "risk_score_percentage", "status", "Age",
       "Gender", "Support Calls", "Payment Delay", "Subscription Type",
       "Contract Length", "Total Spend", "Last Interaction"] := rfl
  have hcsv : exportKeys (csv_data ts risk r) =
      ["Age", "Gender", "Support Calls", "Payment Delay",
       "Subscription Type", "Contract Length", "Total Spend",
       "Last Interaction", "Churn_Risk_Pct", "Timestamp"] := rfl
  refine ⟨?_, by simp [json_payload], by simp [csv_data],
    by simp [json_payload], by simp [csv_data],
    by rw [hjson]; decide, by rw [hcsv]; decide, by rw [hcsv]; decide,
    by rw [hcsv]; decide, by rw [hcsv]; decide⟩
  intro kv hkv
  exact ⟨List.mem_append_right _ hkv, List.mem_append_left _ hkv⟩

/-- C2 amended witness: the default record's age pair, present in both the
JSON and the CSV export. -/
theorem exports_shared_content_witness :
    ("Age", ExportValue.num (35 : ℚ)) ∈
      json_payload "CRM-IDX-0A1B2C3D" "2026-10-12 00:00:00 UTC" 42
        default_record ∧
    ("Age", ExportValue.num (35 : ℚ)) ∈
      csv_data "2026-10-12 00:00:00 UTC" 42 default_record :=
  (exports_shared_content "CRM-IDX-0A1B2C3D" "2026-10-12 00:00:00 UTC" 42
      default_record).1 ("Age", ExportValue.num 35) (by decide)

end ChurnApp
